import Mathlib

/-!
Verification of the `rwester/geospatial` repository.

The development shallowly embeds the two Python modules:

* `haversine.py` — great-circle (haversine) distance, nearest-geocode
  selection and pairwise distance matrix over numpy arrays.  Floating
  point arithmetic is idealized over the reals; numpy arrays are
  rectangular lists of lists; numpy/python exceptions become an error
  type returned through `Except`.
* `googleAPI.py` — the `GoogleMapsAPI` client.  The HTTP exchange is
  abstracted away: each call takes, as an extra argument, the parsed
  JSON document the provider answered with, and returns the mutated
  client together with the outcome of the call (JSON numbers are
  idealized as rationals, which keeps that part of the model
  executable).
-/

namespace Geospatial

/-- Distance units accepted by the haversine module: the keys of the
`earth_radius` dictionary in `haversine.py` line 21. -/
inductive Units where
  | miles
  | km
deriving DecidableEq

/-- The `earth_radius` dictionary of `haversine` (haversine.py line 21):
the earth radius in the chosen unit. -/
noncomputable def earth_radius : Units → ℝ
  | Units.miles => 3959
  | Units.km => 6371

/-- The function `haversine` (haversine.py lines 13-23), floats
idealized over the reals: `np.square` is squaring, `np.sin`, `np.cos`,
`np.arcsin`, `np.sqrt` are the real functions.  Inputs are used as
given (the source performs no degree-to-radian conversion here). -/
noncomputable def haversine (lat1 lon1 lat2 lon2 : ℝ) (units : Units) : ℝ :=
  let a := Real.sin ((lat2 - lat1) / 2) ^ 2 +
    Real.cos lat1 * Real.cos lat2 * Real.sin ((lon2 - lon1) / 2) ^ 2
  2 * earth_radius units * Real.arcsin (Real.sqrt a)

/-- Elementwise `np.radians`: degrees to radians. -/
noncomputable def radians (x : ℝ) : ℝ := x * (Real.pi / 180)

/-- The Python exceptions the embedded code can raise. -/
inductive PyError where
  | typeError
  | keyError
  | indexError
  | valueError (msg : String)
deriving DecidableEq

/-- A two-dimensional numpy array of floats: a rectangular list of rows,
each of width `cols`.  `shape` is `(data.length, cols)`. -/
structure NpMatrix where
  data : List (List ℝ)
  cols : ℕ
  wf : ∀ r ∈ data, r.length = cols

/-- Column access `M[:, j]`: the j-th entry of every row, or an
IndexError (`none`) when `j` is out of bounds. -/
noncomputable def npCol (M : NpMatrix) (j : ℕ) : Option (List ℝ) :=
  if j < M.cols then some (M.data.map (fun r => r.getD j 0)) else none

/-- Scalar access `M[i, j]`. -/
noncomputable def npGet (M : NpMatrix) (i j : ℕ) : Option ℝ :=
  if i < M.data.length ∧ j < M.cols then some ((M.data.getD i []).getD j 0) else none

/-- Comparison used to realize `dist.argsort()`: index `i` before index
`j` when its distance is strictly smaller, with equal distances ordered
by index.  Caution: numpy's default `kind='quicksort'` argsort promises
only the ascending order of the values; the order it produces inside a
run of equal values is unspecified (the sort is documented as not
stable), so the tie clause here is one admissible realization, not a
guarantee of the program.  No theorem below depends on the tie order. -/
def argsortLE (d : List ℝ) (i j : ℕ) : Prop :=
  d.getD i 0 < d.getD j 0 ∨ (d.getD i 0 = d.getD j 0 ∧ i ≤ j)

noncomputable instance (d : List ℝ) : DecidableRel (argsortLE d) :=
  fun _ _ => Classical.dec _

/-- One admissible realization of `dist.argsort()` (haversine.py line
54): the indices `0..n-1` sorted by distance value.  Only properties
that hold for every correct argsort output — being a permutation of the
row indices, lengths, ascending distance values — are used below; the
particular tie order this realization picks is never relied upon. -/
noncomputable def argsort (d : List ℝ) : List ℕ :=
  List.insertionSort (argsortLE d) (List.range d.length)

/-- The function `closest_geocode` (haversine.py lines 25-59).
On success it returns the pair `(min_idx, dist-or-nothing)`, mirroring
the source's two return shapes; errors are numpy exceptions: the
explicit ValueError when `shape[1] <= 2` fails, the IndexError of a
column access `lat_lon_matrix[:, j]` on a too-narrow matrix. -/
noncomputable def closest_geocode (lat_lon_tuple : ℝ × ℝ) (lat_lon_matrix : NpMatrix)
    (n_closest : ℕ) (return_dist : Bool) (units : Units) :
    Except PyError (List ℕ × Option (List ℝ)) :=
  let lat := radians lat_lon_tuple.1
  let lon := radians lat_lon_tuple.2
  if lat_lon_matrix.cols ≤ 2 then
    match npCol lat_lon_matrix 0, npCol lat_lon_matrix 1 with
    | some col0, some col1 =>
      let lats := col0.map radians
      let lons := col1.map radians
      let dist := List.zipWith (fun la lo => haversine lat lon la lo units) lats lons
      let min_idx := (argsort dist).take n_closest
      if return_dist then Except.ok (min_idx, some dist) else Except.ok (min_idx, none)
    | _, _ => Except.error PyError.indexError
  else
    Except.error (PyError.valueError "lat_lon_matrix should only be two columns of format [lat, lon]")

/-- The distance vector `dist` computed inside `closest_geocode`
(haversine.py line 51) on the success path: one haversine distance per
row of the matrix, against the query point. -/
noncomputable def distVector (lat_lon_tuple : ℝ × ℝ) (M : NpMatrix) (units : Units) : List ℝ :=
  List.zipWith
    (fun la lo => haversine (radians lat_lon_tuple.1) (radians lat_lon_tuple.2) la lo units)
    ((M.data.map (fun r => r.getD 0 0)).map radians)
    ((M.data.map (fun r => r.getD 1 0)).map radians)

/-- Sequencing of a Python `for` loop whose body can raise: apply `f` to
each element in order, stopping at the first exception. -/
def exceptMap {α β : Type} (f : α → Except PyError β) : List α → Except PyError (List β)
  | [] => Except.ok []
  | x :: xs =>
    match f x with
    | Except.error e => Except.error e
    | Except.ok y =>
      match exceptMap f xs with
      | Except.error e => Except.error e
      | Except.ok ys => Except.ok (y :: ys)

/-- Body of the loop in `haversine_dist_matrix` (haversine.py lines
74-79): row `i` of the pairwise matrix, from the already-radian matrix
`X`. -/
noncomputable def distMatrixRow (X : NpMatrix) (units : Units) (i : ℕ) : Except PyError (List ℝ) :=
  match npGet X i 0, npGet X i 1, npCol X 0, npCol X 1 with
  | some lat_i, some lon_i, some lats, some lons =>
    Except.ok (List.zipWith (fun la lo => haversine lat_i lon_i la lo units) lats lons)
  | _, _, _, _ => Except.error PyError.indexError

/-- `np.radians(lat_lon_matrix)`: the conversion applied to every entry
(haversine.py line 72). -/
noncomputable def radiansMatrix (M : NpMatrix) : NpMatrix :=
  ⟨M.data.map (fun r => r.map radians), M.cols, by
    intro r hr
    simp only [List.mem_map] at hr
    obtain ⟨s, hs, rfl⟩ := hr
    simpa using M.wf s hs⟩

/-- The function `haversine_dist_matrix` (haversine.py lines 61-82):
shape check, conversion to radians, then one haversine row per point.
A zero-row matrix yields the empty `np.zeros((0, 0))` matrix with no
loop iteration. -/
noncomputable def haversine_dist_matrix (lat_lon_matrix : NpMatrix) (units : Units) :
    Except PyError (List (List ℝ)) :=
  if lat_lon_matrix.cols ≤ 2 then
    exceptMap (distMatrixRow (radiansMatrix lat_lon_matrix) units)
      (List.range lat_lon_matrix.data.length)
  else
    Except.error (PyError.valueError "lat_lon_matrix should only be two columns of format [lat, lon]")

/-- A parsed JSON document (`json.loads` result); numbers are idealized
as rationals. -/
inductive Json where
  | null
  | str (s : String)
  | num (q : ℚ)
  | arr (elems : List Json)
  | obj (fields : List (String × Json))

/-- Python argument values, as far as the client's `isinstance` checks
distinguish them: a string, a list, or anything else. -/
inductive PyVal where
  | pyStr (s : String)
  | pyList (elems : List PyVal)
  | pyNone

/-- Subscripting a parsed JSON value with a string key, Python style:
KeyError when the key is missing, TypeError when the value is not an
object. -/
def jGet (j : Json) (k : String) : Except PyError Json :=
  match j with
  | Json.obj fields =>
    match fields.find? (fun p => p.1 == k) with
    | some p => Except.ok p.2
    | none => Except.error PyError.keyError
  | _ => Except.error PyError.typeError

/-- Subscripting a parsed JSON value with an integer index. -/
def jIdx (j : Json) (i : ℕ) : Except PyError Json :=
  match j with
  | Json.arr elems =>
    match elems[i]? with
    | some x => Except.ok x
    | none => Except.error PyError.indexError
  | _ => Except.error PyError.typeError

/-- Numeric payload of a JSON value, for the arithmetic Python performs
on it (TypeError on a non-number). -/
def asNum (j : Json) : Except PyError ℚ :=
  match j with
  | Json.num q => Except.ok q
  | _ => Except.error PyError.typeError

/-- The comparison `json_result['status'] == 'OK'` on an already
extracted status value. -/
def statusIsOK (j : Json) : Bool :=
  match j with
  | Json.str s => s == "OK"
  | _ => false

/-- The `GoogleMapsAPI` client state: the attributes set by `__init__`
(googleAPI.py lines 10-14) plus the two response attributes the calls
assign (`none` before the first assignment). -/
structure GoogleMapsAPI where
  key : String
  dailylimit : ℕ
  limitpersecond : ℕ
  geocode_result : Option Json
  dist_result : Option Json

/-- `GoogleMapsAPI.__init__` (googleAPI.py lines 10-14). -/
def GoogleMapsAPI.init (key : String) : GoogleMapsAPI :=
  { key := key, dailylimit := 2500, limitpersecond := 50,
    geocode_result := none, dist_result := none }

/-- The walk `json_result['results'][0]['geometry']['location'][field]`
performed twice by `get_geocode` (googleAPI.py lines 47-48). -/
def geocodePath (j : Json) (field : String) : Except PyError Json := do
  let results ← jGet j "results"
  let first ← jIdx results 0
  let geometry ← jGet first "geometry"
  let location ← jGet geometry "location"
  jGet location field

/-- The method `get_geocode` (googleAPI.py lines 16-56).  The HTTP
request is abstracted: `json_result` is the parsed body the provider
returned.  The client comes back alongside the outcome, because the
assignment `self.geocode_result = json_result` happens before any of
the result processing (an exception raised later still leaves the
attribute written); `time.sleep` is elided. -/
def GoogleMapsAPI.get_geocode (self : GoogleMapsAPI) (address : PyVal)
    (json_result : Json) (error : Json) :
    GoogleMapsAPI × Except PyError (List (String × Json)) :=
  match address with
  | PyVal.pyStr _ =>
    let self' := { self with geocode_result := some json_result }
    (self',
      match jGet json_result "status" with
      | Except.error e => Except.error e
      | Except.ok status =>
        if statusIsOK status then
          match geocodePath json_result "lng" with
          | Except.error e => Except.error e
          | Except.ok lon =>
            match geocodePath json_result "lat" with
            | Except.error e => Except.error e
            | Except.ok lat => Except.ok [("longitude", lon), ("latitude", lat)]
        else
          Except.ok [("longitude", error), ("latitude", error)])
  | _ => (self, Except.error PyError.typeError)

/-- Iteration of `'|'.join(l)`: every element must be a string, else a
TypeError. -/
def strList : List PyVal → Except PyError (List String)
  | [] => Except.ok []
  | PyVal.pyStr s :: rest => (strList rest).map (fun ss => s :: ss)
  | _ :: _ => Except.error PyError.typeError

/-- `'|'.join(l)` on a Python list. -/
def joinPipe (elems : List PyVal) : Except PyError String :=
  (strList elems).map (String.intercalate "|")

/-- Marshalling of `origin`/`destination` in `get_distance` (googleAPI.py
lines 74-88): a list is pipe-joined and contributes its length to the
request shape, a string passes through with shape 1, anything else is a
TypeError. -/
def parseEndpoint (v : PyVal) : Except PyError (String × ℕ) :=
  match v with
  | PyVal.pyList elems => (joinPipe elems).map (fun s => (s, elems.length))
  | PyVal.pyStr s => Except.ok (s, 1)
  | _ => Except.error PyError.typeError

/-- The walk
`json_result['rows'][i]['elements'][j][field]['value']` performed by the
inner loop of `get_distance` (googleAPI.py lines 110-111). -/
def elemValue (jr : Json) (i k : ℕ) (field : String) : Except PyError ℚ := do
  let rows ← jGet jr "rows"
  let row ← jIdx rows i
  let elems ← jGet row "elements"
  let elem ← jIdx elems k
  let f ← jGet elem field
  asNum (← jGet f "value")

/-- One entry of the `results` dictionary built by `get_distance`
(googleAPI.py lines 110-113): duration in minutes, distance in miles,
the provider-normalized origin and destination addresses. -/
def distEntry (jr : Json) (i k : ℕ) : Except PyError (String × Json) := do
  let duration ← elemValue jr i k "duration"
  let distance ← elemValue jr i k "distance"
  let origin ← jIdx (← jGet jr "origin_addresses") i
  let destination ← jIdx (← jGet jr "destination_addresses") k
  Except.ok ("origin-" ++ toString i ++ "_destination-" ++ toString k,
    Json.obj [("duration", Json.num (duration / 60)),
              ("distance", Json.num (distance * (621371 / 1000000000))),
              ("origin", origin), ("destination", destination)])

/-- The nested `for i ... for j ...` loops of `get_distance`
(googleAPI.py lines 108-113), building the results dictionary in
insertion order. -/
def distResults (jr : Json) (shape0 shape1 : ℕ) : Except PyError (List (String × Json)) :=
  (exceptMap (fun i => exceptMap (fun k => distEntry jr i k) (List.range shape1))
    (List.range shape0)).map List.flatten

/-- The method `get_distance` (googleAPI.py lines 58-117), abstracted
like `get_geocode`: `json_result` is the parsed provider response, and
the (possibly mutated) client is returned alongside the outcome.  The
`error` parameter is accepted and, as in the source, never used. -/
def GoogleMapsAPI.get_distance (self : GoogleMapsAPI) (origin destination : PyVal)
    (json_result : Json) (error : Json) :
    GoogleMapsAPI × Except PyError (List (String × Json)) :=
  match parseEndpoint origin with
  | Except.error e => (self, Except.error e)
  | Except.ok (_, shape0) =>
    match parseEndpoint destination with
    | Except.error e => (self, Except.error e)
    | Except.ok (_, shape1) =>
      let self' := { self with dist_result := some json_result }
      (self',
        match jGet json_result "status" with
        | Except.error e => Except.error e
        | Except.ok status =>
          if statusIsOK status then distResults json_result shape0 shape1
          else Except.ok [])

/-! ## Shared lemmas -/

/-- Squared sine of a half-difference does not depend on the order of
the difference. -/
lemma sin_sq_half_comm (a b : ℝ) :
    Real.sin ((a - b) / 2) ^ 2 = Real.sin ((b - a) / 2) ^ 2 := by
  have h : (a - b) / 2 = -((b - a) / 2) := by ring
  rw [h, Real.sin_neg, neg_sq]

/-- Swapping the two points leaves the haversine distance unchanged. -/
lemma haversine_comm (lat1 lon1 lat2 lon2 : ℝ) (u : Units) :
    haversine lat1 lon1 lat2 lon2 u = haversine lat2 lon2 lat1 lon1 u := by
  unfold haversine
  have key : Real.sin ((lat2 - lat1) / 2) ^ 2 +
      Real.cos lat1 * Real.cos lat2 * Real.sin ((lon2 - lon1) / 2) ^ 2 =
      Real.sin ((lat1 - lat2) / 2) ^ 2 +
      Real.cos lat2 * Real.cos lat1 * Real.sin ((lon1 - lon2) / 2) ^ 2 := by
    rw [sin_sq_half_comm lat2 lat1, sin_sq_half_comm lon2 lon1]
    ring
  rw [key]

/-- The haversine distance from a point to itself is exactly zero. -/
lemma haversine_self (lat lon : ℝ) (u : Units) :
    haversine lat lon lat lon u = 0 := by
  unfold haversine
  simp

/-- The selected index list of `argsort` is a permutation of all row
indices. -/
lemma argsort_perm (d : List ℝ) : List.Perm (argsort d) (List.range d.length) :=
  List.perm_insertionSort _ _

lemma argsort_length (d : List ℝ) : (argsort d).length = d.length := by
  simpa using (argsort_perm d).length_eq

lemma distVector_length (q : ℝ × ℝ) (M : NpMatrix) (u : Units) :
    (distVector q M u).length = M.data.length := by
  simp [distVector]

/-- On a two-column matrix, `closest_geocode` takes the success path:
the first `n_closest` entries of the argsort of the distance vector,
with the distance vector itself when `return_dist` is set. -/
lemma closest_geocode_ok (q : ℝ × ℝ) (M : NpMatrix) (k : ℕ) (rd : Bool) (u : Units)
    (h : M.cols = 2) :
    closest_geocode q M k rd u =
      Except.ok ((argsort (distVector q M u)).take k,
        if rd then some (distVector q M u) else none) := by
  unfold closest_geocode npCol distVector
  rw [h]
  cases rd <;> simp

/-! ## C1: the haversine formula and its earth-radius constants -/

/-- C1: for coordinates in radians and either unit selector,
`haversine` returns `2 * R(u) * asin(sqrt(sin^2((lat2-lat1)/2) +
cos(lat1)*cos(lat2)*sin^2((lon2-lon1)/2)))` with `R(miles) = 3959` and
`R(km) = 6371`; the inputs are used raw, with no degree-to-radian
conversion. -/
theorem haversine_formula_and_radii (lat1 lon1 lat2 lon2 : ℝ) (u : Units) :
    haversine lat1 lon1 lat2 lon2 u =
      2 * earth_radius u * Real.arcsin (Real.sqrt
        (Real.sin ((lat2 - lat1) / 2) ^ 2 +
          Real.cos lat1 * Real.cos lat2 * Real.sin ((lon2 - lon1) / 2) ^ 2)) ∧
    earth_radius Units.miles = 3959 ∧ earth_radius Units.km = 6371 :=
  ⟨rfl, rfl, rfl⟩

/-! ## C7: symmetry of the great-circle distance -/

/-- C7: the great-circle distance is symmetric in its two points, in
either unit. -/
theorem haversine_symmetric (lat1 lon1 lat2 lon2 : ℝ) (u : Units) :
    haversine lat1 lon1 lat2 lon2 u = haversine lat2 lon2 lat1 lon1 u :=
  haversine_comm lat1 lon1 lat2 lon2 u

/-- The three-row coordinate matrix of the repository's own example
(haversine.py lines 91-93). -/
noncomputable def exampleMatrix : NpMatrix :=
  ⟨[[42.529234, -71.182604], [42.400930, -71.058486], [42.346939, -71.168314]], 2, by
    intro r hr
    simp only [List.mem_cons, List.not_mem_nil, or_false] at hr
    rcases hr with rfl | rfl | rfl <;> rfl⟩

lemma getD_map_of_lt {α β : Type} (g : α → β) (l : List α) (i : ℕ) (hi : i < l.length)
    (c : β) (a₀ : α) : (l.map g).getD i c = g (l.getD i a₀) := by
  rw [List.getD_eq_getElem _ c (by simpa using hi), List.getD_eq_getElem _ a₀ hi,
    List.getElem_map]

lemma getD_zipWith_of_lt (f : ℝ → ℝ → ℝ) (as bs : List ℝ) (i : ℕ)
    (ha : i < as.length) (hb : i < bs.length) (c a₀ b₀ : ℝ) :
    (List.zipWith f as bs).getD i c = f (as.getD i a₀) (bs.getD i b₀) := by
  rw [List.getD_eq_getElem _ c (by rw [List.length_zipWith]; omega),
    List.getD_eq_getElem _ a₀ ha, List.getD_eq_getElem _ b₀ hb, List.getElem_zipWith]

/-! ## C3: the returned distance vector is full and aligned -/

/-- C3: with `return_dist` set, `closest_geocode` returns, alongside
the selected indices, the full distance vector: its length is the
number of rows of the matrix and its i-th entry is the haversine
distance from the (radian-converted) query to the (radian-converted)
i-th row. -/
theorem closest_geocode_full_dist (q : ℝ × ℝ) (M : NpMatrix) (k : ℕ) (u : Units)
    (h : M.cols = 2) :
    ∃ idx, closest_geocode q M k true u = Except.ok (idx, some (distVector q M u)) ∧
      (distVector q M u).length = M.data.length ∧
      ∀ i, i < M.data.length → (distVector q M u).getD i 0 =
        haversine (radians q.1) (radians q.2)
          (radians ((M.data.getD i []).getD 0 0)) (radians ((M.data.getD i []).getD 1 0)) u := by
  refine ⟨(argsort (distVector q M u)).take k, ?_, distVector_length q M u, ?_⟩
  · simpa using closest_geocode_ok q M k true u h
  · intro i hi
    unfold distVector
    rw [getD_zipWith_of_lt _ _ _ i (by simpa using hi) (by simpa using hi) 0 0 0,
      getD_map_of_lt radians _ i (by simpa using hi) 0 0,
      getD_map_of_lt (fun r => r.getD 0 0) _ i hi 0 [],
      getD_map_of_lt radians _ i (by simpa using hi) 0 0,
      getD_map_of_lt (fun r => r.getD 1 0) _ i hi 0 []]

/-- Witness for C3 at the repository's example data. -/
theorem closest_geocode_full_dist_witness :
    exampleMatrix.cols = 2 ∧
    (∃ idx, closest_geocode (42.396154, -71.272548) exampleMatrix 2 true Units.miles =
        Except.ok (idx, some (distVector (42.396154, -71.272548) exampleMatrix Units.miles)) ∧
      (distVector (42.396154, -71.272548) exampleMatrix Units.miles).length =
        exampleMatrix.data.length ∧
      ∀ i, i < exampleMatrix.data.length →
        (distVector (42.396154, -71.272548) exampleMatrix Units.miles).getD i 0 =
          haversine (radians 42.396154) (radians (-71.272548))
            (radians ((exampleMatrix.data.getD i []).getD 0 0))
            (radians ((exampleMatrix.data.getD i []).getD 1 0)) Units.miles) :=
  ⟨rfl, closest_geocode_full_dist (42.396154, -71.272548) exampleMatrix 2 Units.miles rfl⟩

/-! ## C4: an oversized n_closest is clamped by slice truncation -/

/-- C4: when `n_closest` exceeds the number of rows, `closest_geocode`
does not fail; the slice truncates and all `n` indices come back (the
result has length `min n_closest n = n` and is a permutation of all row
indices). -/
theorem closest_geocode_clamps (q : ℝ × ℝ) (M : NpMatrix) (k : ℕ) (rd : Bool) (u : Units)
    (h : M.cols = 2) (hk : M.data.length < k) :
    ∃ idx dopt, closest_geocode q M k rd u = Except.ok (idx, dopt) ∧
      idx.length = M.data.length ∧ List.Perm idx (List.range M.data.length) := by
  have htake : (argsort (distVector q M u)).take k = argsort (distVector q M u) := by
    apply List.take_of_length_le
    rw [argsort_length, distVector_length]
    omega
  refine ⟨argsort (distVector q M u),
    if rd then some (distVector q M u) else none, ?_, ?_, ?_⟩
  · rw [closest_geocode_ok q M k rd u h, htake]
  · rw [argsort_length, distVector_length]
  · have hp := argsort_perm (distVector q M u)
    rwa [distVector_length] at hp

/-- Witness for C4: three rows, five requested. -/
theorem closest_geocode_clamps_witness :
    exampleMatrix.cols = 2 ∧ exampleMatrix.data.length < 5 ∧
    (∃ idx dopt, closest_geocode (42.396154, -71.272548) exampleMatrix 5 false Units.miles =
        Except.ok (idx, dopt) ∧
      idx.length = exampleMatrix.data.length ∧
      List.Perm idx (List.range exampleMatrix.data.length)) :=
  ⟨rfl, by decide,
    closest_geocode_clamps (42.396154, -71.272548) exampleMatrix 5 false Units.miles rfl
      (by decide)⟩

/-! ## C10: n_closest = 0 yields an empty selection without error -/

/-- C10: on a non-empty two-column matrix, `closest_geocode` with
`n_closest = 0` raises nothing and selects no indices (the slice
`[:0]` is empty). -/
theorem closest_geocode_zero_closest (q : ℝ × ℝ) (M : NpMatrix) (rd : Bool) (u : Units)
    (h : M.cols = 2) (hne : 0 < M.data.length) :
    ∃ dopt, closest_geocode q M 0 rd u = Except.ok ([], dopt) := by
  refine ⟨if rd then some (distVector q M u) else none, ?_⟩
  rw [closest_geocode_ok q M 0 rd u h, List.take_zero]

/-- Witness for C10 at the example matrix. -/
theorem closest_geocode_zero_closest_witness :
    exampleMatrix.cols = 2 ∧ 0 < exampleMatrix.data.length ∧
    (∃ dopt, closest_geocode (42.396154, -71.272548) exampleMatrix 0 false Units.miles =
        Except.ok ([], dopt)) :=
  ⟨rfl, by decide,
    closest_geocode_zero_closest (42.396154, -71.272548) exampleMatrix false Units.miles rfl
      (by decide)⟩

/-! ## C5: the two-column validation -/

/-- A one-row, one-column matrix: passes the source's `shape[1] <= 2`
check, then dies on the column access `lat_lon_matrix[:, 1]`. -/
noncomputable def oneColMatrix : NpMatrix :=
  ⟨[[0]], 1, by
    intro r hr
    simp only [List.mem_cons, List.not_mem_nil, or_false] at hr
    subst hr
    rfl⟩

/-- A zero-row, one-column matrix: `haversine_dist_matrix` never enters
its loop on it and returns the empty matrix. -/
noncomputable def emptyNarrowMatrix : NpMatrix :=
  ⟨[], 1, by intro r hr; cases hr⟩

/-- Counterexample to C5: matrices whose column count is below 2 do
not get the ValueError.  `closest_geocode` on a one-column matrix
raises an IndexError instead, and `haversine_dist_matrix` on a
zero-row one-column matrix raises nothing at all. -/
theorem two_column_check_counterexample :
    oneColMatrix.cols ≠ 2 ∧
    closest_geocode (0, 0) oneColMatrix 1 false Units.miles =
      Except.error PyError.indexError ∧
    emptyNarrowMatrix.cols ≠ 2 ∧
    haversine_dist_matrix emptyNarrowMatrix Units.miles = Except.ok [] :=
  ⟨by decide, rfl, by decide, rfl⟩

lemma distMatrixRow_not_valueError (X : NpMatrix) (u : Units) (i : ℕ) (msg : String) :
    distMatrixRow X u i ≠ Except.error (PyError.valueError msg) := by
  unfold distMatrixRow
  split <;> simp

lemma exceptMap_not_valueError {α β : Type} (f : α → Except PyError β) (l : List α)
    (hf : ∀ x ∈ l, ∀ msg, f x ≠ Except.error (PyError.valueError msg)) (msg : String) :
    exceptMap f l ≠ Except.error (PyError.valueError msg) := by
  induction l with
  | nil => simp [exceptMap]
  | cons x xs ih =>
    rcases hfx : f x with e | y
    · have hne : e ≠ PyError.valueError msg := by
        intro hc
        exact hf x (List.mem_cons_self x xs) msg (by rw [hfx, hc])
      simp [exceptMap, hfx, hne]
    · rcases hxs : exceptMap f xs with e2 | ys
      · have hne : e2 ≠ PyError.valueError msg := by
          intro hc
          exact ih (fun y hy m => hf y (List.mem_cons_of_mem x hy) m) (by rw [hxs, hc])
        simp [exceptMap, hfx, hxs, hne]
      · simp [exceptMap, hfx, hxs]

/-- C5 as amended: the ValueError is raised exactly when the matrix
has MORE than two columns (the source checks `shape[1] <= 2`); a
two-column matrix never raises it, and a matrix with fewer than two
columns fails in `closest_geocode` with an IndexError on the column
access instead of the documented ValueError. -/
theorem two_column_check_amended (q : ℝ × ℝ) (M : NpMatrix) (k : ℕ) (rd : Bool) (u : Units) :
    ((∃ msg, closest_geocode q M k rd u = Except.error (PyError.valueError msg)) ↔ 2 < M.cols) ∧
    ((∃ msg, haversine_dist_matrix M u = Except.error (PyError.valueError msg)) ↔ 2 < M.cols) ∧
    (M.cols < 2 → closest_geocode q M k rd u = Except.error PyError.indexError) := by
  refine ⟨⟨?_, ?_⟩, ⟨?_, ?_⟩, ?_⟩
  · rintro ⟨msg, hmsg⟩
    by_contra hc
    rw [not_lt] at hc
    revert hmsg
    unfold closest_geocode
    rw [if_pos hc]
    split <;> cases rd <;> simp
  · intro hc
    refine ⟨"lat_lon_matrix should only be two columns of format [lat, lon]", ?_⟩
    unfold closest_geocode
    rw [if_neg (by omega)]
  · rintro ⟨msg, hmsg⟩
    by_contra hc
    rw [not_lt] at hc
    revert hmsg
    unfold haversine_dist_matrix
    rw [if_pos hc]
    exact exceptMap_not_valueError _ _
      (fun i _ m => distMatrixRow_not_valueError (radiansMatrix M) u i m) msg
  · intro hc
    refine ⟨"lat_lon_matrix should only be two columns of format [lat, lon]", ?_⟩
    unfold haversine_dist_matrix
    rw [if_neg (by omega)]
  · intro hlt
    have h1 : npCol M 1 = none := by
      unfold npCol
      rw [if_neg (by omega)]
    unfold closest_geocode
    rw [if_pos (by omega)]
    rcases h0 : npCol M 0 with _ | c <;> simp [h0, h1]

/-! ## C6: the pairwise matrix is symmetric with a zero diagonal -/

lemma exceptMap_ok {α β : Type} (f : α → Except PyError β) (g : α → β) (l : List α)
    (hf : ∀ x ∈ l, f x = Except.ok (g x)) : exceptMap f l = Except.ok (l.map g) := by
  induction l with
  | nil => rfl
  | cons x xs ih =>
    have hx := hf x (List.mem_cons_self x xs)
    have hxs := ih (fun y hy => hf y (List.mem_cons_of_mem x hy))
    simp [exceptMap, hx, hxs]

lemma range_getD (n i : ℕ) (hi : i < n) : (List.range n).getD i 0 = i := by
  rw [List.getD_eq_getElem _ _ (by simpa using hi)]
  exact List.getElem_range _ _

/-- In-range behavior of a loop iteration of `haversine_dist_matrix`:
row `i` is the vector of distances from point `i` to every point. -/
lemma distMatrixRow_ok (X : NpMatrix) (u : Units) (i : ℕ)
    (h2 : X.cols = 2) (hi : i < X.data.length) :
    distMatrixRow X u i = Except.ok (List.zipWith
      (fun la lo => haversine ((X.data.getD i []).getD 0 0) ((X.data.getD i []).getD 1 0) la lo u)
      (X.data.map (fun r => r.getD 0 0)) (X.data.map (fun r => r.getD 1 0))) := by
  unfold distMatrixRow npGet npCol
  rw [h2]
  simp [hi]

/-- C6: on a two-column matrix `haversine_dist_matrix` succeeds with an
n-by-n matrix whose (i,j) entry equals its (j,i) entry and whose
diagonal entries are exactly 0. -/
theorem haversine_dist_matrix_symm_zero_diag (M : NpMatrix) (u : Units) (h : M.cols = 2) :
    ∃ D, haversine_dist_matrix M u = Except.ok D ∧
      D.length = M.data.length ∧
      (∀ row ∈ D, row.length = M.data.length) ∧
      (∀ i j, i < M.data.length → j < M.data.length →
        (D.getD i []).getD j 0 = (D.getD j []).getD i 0) ∧
      (∀ i, i < M.data.length → (D.getD i []).getD i 0 = 0) := by
  have hXcols : (radiansMatrix M).cols = 2 := h
  have hXlen : (radiansMatrix M).data.length = M.data.length := by
    simp [radiansMatrix]
  have hrow : ∀ i ∈ List.range M.data.length, distMatrixRow (radiansMatrix M) u i =
      Except.ok (List.zipWith
        (fun la lo => haversine (((radiansMatrix M).data.getD i []).getD 0 0)
          (((radiansMatrix M).data.getD i []).getD 1 0) la lo u)
        ((radiansMatrix M).data.map (fun r => r.getD 0 0))
        ((radiansMatrix M).data.map (fun r => r.getD 1 0))) := by
    intro i hi
    exact distMatrixRow_ok (radiansMatrix M) u i hXcols
      (by rw [hXlen]; exact List.mem_range.mp hi)
  have hD : haversine_dist_matrix M u = Except.ok ((List.range M.data.length).map
      (fun i => List.zipWith
        (fun la lo => haversine (((radiansMatrix M).data.getD i []).getD 0 0)
          (((radiansMatrix M).data.getD i []).getD 1 0) la lo u)
        ((radiansMatrix M).data.map (fun r => r.getD 0 0))
        ((radiansMatrix M).data.map (fun r => r.getD 1 0)))) := by
    unfold haversine_dist_matrix
    rw [if_pos (by omega)]
    exact exceptMap_ok _ _ _ hrow
  have hentry : ∀ i j, i < M.data.length → j < M.data.length →
      ((((List.range M.data.length).map
        (fun i => List.zipWith
          (fun la lo => haversine (((radiansMatrix M).data.getD i []).getD 0 0)
            (((radiansMatrix M).data.getD i []).getD 1 0) la lo u)
          ((radiansMatrix M).data.map (fun r => r.getD 0 0))
          ((radiansMatrix M).data.map (fun r => r.getD 1 0)))).getD i []).getD j 0) =
      haversine (((radiansMatrix M).data.getD i []).getD 0 0)
        (((radiansMatrix M).data.getD i []).getD 1 0)
        (((radiansMatrix M).data.getD j []).getD 0 0)
        (((radiansMatrix M).data.getD j []).getD 1 0) u := by
    intro i j hi hj
    rw [getD_map_of_lt _ _ i (by simpa using hi) [] 0, range_getD _ i hi,
      getD_zipWith_of_lt _ _ _ j (by rw [List.length_map, hXlen]; exact hj)
        (by rw [List.length_map, hXlen]; exact hj) 0 0 0,
      getD_map_of_lt (fun r : List ℝ => r.getD 0 0) (radiansMatrix M).data j
        (by rw [hXlen]; exact hj) 0 [],
      getD_map_of_lt (fun r : List ℝ => r.getD 1 0) (radiansMatrix M).data j
        (by rw [hXlen]; exact hj) 0 []]
  refine ⟨_, hD, by simp, ?_, ?_, ?_⟩
  · intro row hrowmem
    simp only [List.mem_map, List.mem_range] at hrowmem
    obtain ⟨i, hi, rfl⟩ := hrowmem
    simp [hXlen]
  · intro i j hi hj
    rw [hentry i j hi hj, hentry j i hj hi]
    exact haversine_comm _ _ _ _ u
  · intro i hi
    rw [hentry i i hi hi]
    exact haversine_self _ _ u

/-- Witness for C6 at the repository's example matrix. -/
theorem haversine_dist_matrix_symm_zero_diag_witness :
    exampleMatrix.cols = 2 ∧
    (∃ D, haversine_dist_matrix exampleMatrix Units.miles = Except.ok D ∧
      D.length = exampleMatrix.data.length ∧
      (∀ row ∈ D, row.length = exampleMatrix.data.length) ∧
      (∀ i j, i < exampleMatrix.data.length → j < exampleMatrix.data.length →
        (D.getD i []).getD j 0 = (D.getD j []).getD i 0) ∧
      (∀ i, i < exampleMatrix.data.length → (D.getD i []).getD i 0 = 0)) :=
  ⟨rfl, haversine_dist_matrix_symm_zero_diag exampleMatrix Units.miles rfl⟩

/-! ## C8: upstream failure policy of the client -/

/-- C8: when the provider's response has a non-OK status, `get_geocode`
still returns a mapping with both coordinates filled by the
caller-supplied sentinel, and `get_distance` returns the empty mapping;
neither call raises. -/
theorem upstream_failure_policy (self : GoogleMapsAPI) (s o d : String)
    (json err st : Json)
    (h1 : jGet json "status" = Except.ok st) (h2 : statusIsOK st = false) :
    (self.get_geocode (PyVal.pyStr s) json err).2 =
      Except.ok [("longitude", err), ("latitude", err)] ∧
    (self.get_distance (PyVal.pyStr o) (PyVal.pyStr d) json err).2 = Except.ok [] := by
  constructor
  · unfold GoogleMapsAPI.get_geocode
    simp [h1, h2]
  · unfold GoogleMapsAPI.get_distance parseEndpoint
    simp [h1, h2]

/-- Witness for C8: a ZERO_RESULTS status, the default 'Error' sentinel. -/
theorem upstream_failure_policy_witness :
    jGet (Json.obj [("status", Json.str "ZERO_RESULTS")]) "status" =
      Except.ok (Json.str "ZERO_RESULTS") ∧
    statusIsOK (Json.str "ZERO_RESULTS") = false ∧
    ((GoogleMapsAPI.init "k").get_geocode (PyVal.pyStr "Boston, MA")
        (Json.obj [("status", Json.str "ZERO_RESULTS")]) (Json.str "Error")).2 =
      Except.ok [("longitude", Json.str "Error"), ("latitude", Json.str "Error")] ∧
    ((GoogleMapsAPI.init "k").get_distance (PyVal.pyStr "Boston, MA")
        (PyVal.pyStr "New York, NY")
        (Json.obj [("status", Json.str "ZERO_RESULTS")]) (Json.str "Error")).2 =
      Except.ok [] :=
  ⟨rfl, rfl,
    (upstream_failure_policy (GoogleMapsAPI.init "k") "Boston, MA" "Boston, MA" "New York, NY"
      (Json.obj [("status", Json.str "ZERO_RESULTS")]) (Json.str "Error")
      (Json.str "ZERO_RESULTS") rfl rfl).1,
    (upstream_failure_policy (GoogleMapsAPI.init "k") "Boston, MA" "Boston, MA" "New York, NY"
      (Json.obj [("status", Json.str "ZERO_RESULTS")]) (Json.str "Error")
      (Json.str "ZERO_RESULTS") rfl rfl).2⟩

/-! ## C9: both calls mutate only their result attribute -/

/-- C9: a `get_geocode` call that passes type validation stores the
parsed response in `geocode_result`, and a `get_distance` call that
passes validation stores it in `dist_result`; nothing else of the
client state (key, dailylimit, limitpersecond, the other result
attribute) changes. -/
theorem client_state_overwrite (self : GoogleMapsAPI) (addr o d : PyVal) (s : String)
    (json err : Json) (h1 : addr = PyVal.pyStr s)
    (h2 : ∃ p, parseEndpoint o = Except.ok p)
    (h3 : ∃ p, parseEndpoint d = Except.ok p) :
    (self.get_geocode addr json err).1 = { self with geocode_result := some json } ∧
    (self.get_distance o d json err).1 = { self with dist_result := some json } := by
  subst h1
  obtain ⟨⟨p1, p2⟩, hp⟩ := h2
  obtain ⟨⟨q1, q2⟩, hq⟩ := h3
  constructor
  · rfl
  · unfold GoogleMapsAPI.get_distance
    rw [hp, hq]

/-- Witness for C9: a string address, a two-element origin list and a
string destination. -/
theorem client_state_overwrite_witness :
    (PyVal.pyStr "Boston, MA" : PyVal) = PyVal.pyStr "Boston, MA" ∧
    (∃ p, parseEndpoint (PyVal.pyList [PyVal.pyStr "Boston, MA", PyVal.pyStr "Burlington, VT"]) =
      Except.ok p) ∧
    (∃ p, parseEndpoint (PyVal.pyStr "New York, NY") = Except.ok p) ∧
    ((GoogleMapsAPI.init "k").get_geocode (PyVal.pyStr "Boston, MA") Json.null
        (Json.str "Error")).1 =
      { GoogleMapsAPI.init "k" with geocode_result := some Json.null } ∧
    ((GoogleMapsAPI.init "k").get_distance
        (PyVal.pyList [PyVal.pyStr "Boston, MA", PyVal.pyStr "Burlington, VT"])
        (PyVal.pyStr "New York, NY") Json.null (Json.str "Error")).1 =
      { GoogleMapsAPI.init "k" with dist_result := some Json.null } :=
  ⟨rfl, ⟨("Boston, MA|Burlington, VT", 2), rfl⟩, ⟨("New York, NY", 1), rfl⟩,
    (client_state_overwrite (GoogleMapsAPI.init "k") (PyVal.pyStr "Boston, MA")
      (PyVal.pyList [PyVal.pyStr "Boston, MA", PyVal.pyStr "Burlington, VT"])
      (PyVal.pyStr "New York, NY") "Boston, MA" Json.null (Json.str "Error") rfl
      ⟨("Boston, MA|Burlington, VT", 2), rfl⟩ ⟨("New York, NY", 1), rfl⟩).1,
    (client_state_overwrite (GoogleMapsAPI.init "k") (PyVal.pyStr "Boston, MA")
      (PyVal.pyList [PyVal.pyStr "Boston, MA", PyVal.pyStr "Burlington, VT"])
      (PyVal.pyStr "New York, NY") "Boston, MA" Json.null (Json.str "Error") rfl
      ⟨("Boston, MA|Burlington, VT", 2), rfl⟩ ⟨("New York, NY", 1), rfl⟩).2⟩

end Geospatial
